import Mathlib

/-!
Verification of the UAV configuration engine in `backend/calc.py`.
All real-valued quantities are modelled as rationals (the source only ever
combines finite decimal constants with the request fields by field
arithmetic), booleans as `Bool`, and the mission / platform / propulsion
strings as inductive types with one constructor per string the source uses.
-/

namespace UavArc

/-- A request to the `/api/configure` endpoint, after the JSON fields are
converted with `float(...)` / `bool(...)`. -/
structure MissionRequest where
  timeHours : ℚ
  radiusKm : ℚ
  payloadKg : ℚ
  lowNoise : Bool
  budget : ℚ
  deriving Repr, DecidableEq

/-- The three mission-class strings returned by `classify_mission`. -/
inductive MissionClass
  | tactical
  | operational
  | strategic
  deriving Repr, DecidableEq

/-- The four platform strings returned by `select_uav_type`. -/
inductive UavType
  | fpv_multirotor
  | fixed_wing
  | flying_wing
  | loitering_munition
  deriving Repr, DecidableEq

/-- The three propulsion strings returned by `choose_propulsion`
(`piston_engine` is what the specification calls `combustion`). -/
inductive Propulsion
  | electric
  | piston_engine
  | turbine
  deriving Repr, DecidableEq

/-- `RHO = 1.225`, sea-level air density. -/
def RHO : ℚ := 1.225

/-- `classify_mission(time_h, radius_km)` from `calc.py`. -/
def classify_mission (time_h radius_km : ℚ) : MissionClass :=
  if time_h ≤ 4 ∧ radius_km ≤ 50 then .tactical
  else if time_h ≤ 27 ∧ radius_km ≤ 300 then .operational
  else .strategic

/-- `select_uav_type(mission, payload_kg, radius_km, time_h)` from `calc.py`. -/
def select_uav_type (mission : MissionClass) (payload_kg radius_km time_h : ℚ) :
    UavType :=
  match mission with
  | .tactical =>
      if time_h ≤ 1.5 ∧ radius_km ≤ 15 ∧ payload_kg ≤ 2 then .fpv_multirotor
      else .fixed_wing
  | .operational =>
      if payload_kg ≥ 20 ∨ radius_km > 80 then .fixed_wing
      else .flying_wing
  | .strategic =>
      if radius_km ≥ 400 ∧ payload_kg ≥ 20 then .loitering_munition
      else .flying_wing

/-- `choose_propulsion(mission_type, low_noise, budget, uav_type)` from
`calc.py` (the `uav_type` argument is accepted but never read, as in the
source). -/
def choose_propulsion (mission_type : MissionClass) (low_noise : Bool)
    (budget : ℚ) (_uav_type : UavType) : Propulsion :=
  match mission_type with
  | .tactical =>
      if low_noise ∧ budget < 7000 then .electric
      else .piston_engine
  | .operational =>
      if budget > 100000 ∧ ¬low_noise then .turbine
      else .piston_engine
  | .strategic =>
      if budget > 50000 then .turbine
      else .piston_engine

/-- The `TEMPLATES` table, `emptyMass_kg` column. -/
def template_emptyMass : MissionClass → ℚ
  | .tactical => 2.0
  | .operational => 50.0
  | .strategic => 150.0

/-- The `TEMPLATES` table, `Cd` column. -/
def template_Cd : MissionClass → ℚ
  | .tactical => 0.04
  | .operational => 0.04
  | .strategic => 0.035

/-- The `TEMPLATES` table, `S` column. -/
def template_S : MissionClass → ℚ
  | .tactical => 0.8
  | .operational => 8.0
  | .strategic => 18.0

/-- The `TEMPLATES` table, `v` column. -/
def template_v : MissionClass → ℚ
  | .tactical => 20
  | .operational => 60
  | .strategic => 120

/-- The `PROP` table, `eta_prop` column. -/
def eta_prop : Propulsion → ℚ
  | .electric => 0.8
  | .piston_engine => 0.8
  | .turbine => 0.85

/-- `PROP["electric"]["eta_sys"]`. -/
def eta_sys_electric : ℚ := 0.8

/-- `PROP["electric"]["battery_wh_kg"]`. -/
def battery_wh_kg : ℚ := 220

/-- `PROP["piston_engine"]["bsfc"]` (kg/kWh). -/
def bsfc_piston : ℚ := 0.25

/-- `PROP["turbine"]["bsfc"]` (kg/kWh). -/
def bsfc_turbine : ℚ := 0.3

/-- The `UAV_AERO_FACTORS` table, `v_factor` column. -/
def v_factor : UavType → ℚ
  | .fpv_multirotor => 0.5
  | .fixed_wing => 0.7
  | .flying_wing => 0.9
  | .loitering_munition => 1.0

/-- The `UAV_AERO_FACTORS` table, `Cd_factor` column. -/
def Cd_factor : UavType → ℚ
  | .fpv_multirotor => 1.6
  | .fixed_wing => 1.0
  | .flying_wing => 0.8
  | .loitering_munition => 0.9

/-- The `UAV_AERO_FACTORS` table, `S_factor` column. -/
def S_factor : UavType → ℚ
  | .fpv_multirotor => 0.6
  | .fixed_wing => 0.8
  | .flying_wing => 0.7
  | .loitering_munition => 0.7

/-- `aerodynamic_drag(rho, v, S, Cd)` from `calc.py`. -/
def aerodynamic_drag (rho v S Cd : ℚ) : ℚ :=
  0.5 * rho * v * v * S * Cd

/-- `cruise_power(T, v, eta)` from `calc.py`. -/
def cruise_power (T v eta : ℚ) : ℚ :=
  T * v / eta

/-- `electric_energy(power_W, t_h, wh_kg, eta_sys)` from `calc.py`:
returns the pair `(energy in Wh, battery mass in kg)`. -/
def electric_energy (power_W t_h wh_kg eta_sys : ℚ) : ℚ × ℚ :=
  let Wh := (power_W * t_h) / eta_sys
  (Wh, Wh / wh_kg)

/-- `fuel_mass(power_W, t_h, bsfc)` from `calc.py`. -/
def fuel_mass (power_W t_h bsfc : ℚ) : ℚ :=
  t_h * bsfc * (power_W / 1000.0)

/-- `performance(v_mps, time_h)` from `calc.py`: returns
`(range in km, radius of action in km)`. -/
def performance (v_mps time_h : ℚ) : ℚ × ℚ :=
  let dist := v_mps * time_h * 3.6
  (dist, dist / 2.0)

/-- Step 5 of `configure`: the battery / fuel sizing branch.  For electric
propulsion `Wh, energy_mass = electric_energy(P, time_h, battery_wh_kg,
eta_sys)`; otherwise `Wh = None` and `energy_mass = fuel_mass(P, time_h,
bsfc)` with the `bsfc` of the chosen propulsion. -/
def energy_branch (propulsion : Propulsion) (P time_h : ℚ) : Option ℚ × ℚ :=
  match propulsion with
  | .electric =>
      (some (electric_energy P time_h battery_wh_kg eta_sys_electric).1,
       (electric_energy P time_h battery_wh_kg eta_sys_electric).2)
  | .piston_engine => (none, fuel_mass P time_h bsfc_piston)
  | .turbine => (none, fuel_mass P time_h bsfc_turbine)

/-- The numeric and categorical results computed by `configure` before the
response is serialized (rounding for display is not modelled; the fields
hold the exact computed values). -/
structure ComputedConfiguration where
  missionType : MissionClass
  uavType : UavType
  propulsion : Propulsion
  drag_N : ℚ
  thrust_N : ℚ
  power_W : ℚ
  energy_Wh : Option ℚ
  energyMass_kg : ℚ
  emptyMass_kg : ℚ
  mtow_kg : ℚ
  range_km : ℚ
  achievableRadius_km : ℚ
  cruise_speed_mps : ℚ
  wing_area_m2 : ℚ
  Cd : ℚ
  meetsRadius : Bool
  deriving Repr, DecidableEq

/-- The deterministic part of the `configure` endpoint (steps 1–6 of the
source): classification, platform and propulsion selection, aerodynamic and
energy sizing, and the mass / range / radius closure.  Faithful to
`calc.py` lines 429–462; note that no validation of the request's numeric
fields is performed anywhere in the source. -/
def configureCore (d : MissionRequest) : ComputedConfiguration :=
  let mission := classify_mission d.timeHours d.radiusKm
  let uav_type := select_uav_type mission d.payloadKg d.radiusKm d.timeHours
  let v := template_v mission * v_factor uav_type
  let S := template_S mission * S_factor uav_type
  let Cd := template_Cd mission * Cd_factor uav_type
  let empty_mass := template_emptyMass mission
  let propulsion := choose_propulsion mission d.lowNoise d.budget uav_type
  let D := aerodynamic_drag RHO v S Cd
  let T := D
  let P := cruise_power T v (eta_prop propulsion)
  let Wh := (energy_branch propulsion P d.timeHours).1
  let energy_mass := (energy_branch propulsion P d.timeHours).2
  let MTOW := empty_mass + d.payloadKg + energy_mass
  let range_km := (performance v d.timeHours).1
  let max_radius := (performance v d.timeHours).2
  let meets := decide (max_radius ≥ d.radiusKm)
  { missionType := mission
    uavType := uav_type
    propulsion := propulsion
    drag_N := D
    thrust_N := T
    power_W := P
    energy_Wh := Wh
    energyMass_kg := energy_mass
    emptyMass_kg := empty_mass
    mtow_kg := MTOW
    range_km := range_km
    achievableRadius_km := max_radius
    cruise_speed_mps := v
    wing_area_m2 := S
    Cd := Cd
    meetsRadius := meets }

/-- The possible outcomes of the network call
`requests.post(GEMINI_API_URL, json=payload).json()` in `gemini_summary`,
as seen by the caller. -/
inductive NetOutcome
  | timeout
  | connError
  | malformedBody
  | missingKeys
  | okText (text : String)
  deriving Repr, DecidableEq

/-- `gemini_summary` from `calc.py`.  If `API_KEY` is empty the function
returns its fallback string without touching the network.  Otherwise the
line `r = requests.post(...).json()` runs OUTSIDE the `try` block, so a
timeout, a connection error, or a body that is not JSON raises an exception
that propagates to the caller (modelled as `Except.error`); only the key /
index lookups on the parsed object are guarded by `try ... except`. -/
def gemini_summary (apiKey : String) (net : NetOutcome) :
    Except NetOutcome String :=
  if apiKey = "" then .ok "AI недоступний: немає GEMINI_API_KEY"
  else
    match net with
    | .timeout => .error .timeout
    | .connError => .error .connError
    | .malformedBody => .error .malformedBody
    | .missingKeys => .ok "AI не зміг сформувати висновок."
    | .okText t => .ok t

/-- The full `configure` endpoint: the deterministic computation followed by
the `gemini_summary` call (step 8).  `configure` wraps the call in no
handler, so an exception escaping `gemini_summary` aborts the whole request
(modelled as `Except.error`); on success the response carries the computed
configuration and the AI summary string. -/
def configure (apiKey : String) (net : NetOutcome) (d : MissionRequest) :
    Except NetOutcome (ComputedConfiguration × String) :=
  let cfg := configureCore d
  match gemini_summary apiKey net with
  | .error e => .error e
  | .ok s => .ok (cfg, s)

/-- Severity order on mission classes: tactical < operational < strategic. -/
def severity : MissionClass → ℕ
  | .tactical => 0
  | .operational => 1
  | .strategic => 2

/-! ### Helper lemmas -/

theorem configureCore_missionType (d : MissionRequest) :
    (configureCore d).missionType = classify_mission d.timeHours d.radiusKm := rfl

theorem classify_mission_monotone (t₁ r₁ t₂ r₂ : ℚ) (ht : t₁ ≤ t₂) (hr : r₁ ≤ r₂) :
    severity (classify_mission t₁ r₁) ≤ severity (classify_mission t₂ r₂) := by
  unfold classify_mission
  split_ifs with h1 h2 h3 h4 h5 h6 h7 h8
  any_goals decide
  · exact absurd ⟨ht.trans h5.1, hr.trans h5.2⟩ h1
  · exact absurd ⟨(ht.trans h7.1).trans (by norm_num),
      (hr.trans h7.2).trans (by norm_num)⟩ h4
  · exact absurd ⟨ht.trans h8.1, hr.trans h8.2⟩ h4

/-! ### Claim theorems -/

/-- C1 (amended): `configure` applies no payload correction to the mission
class: the mission class is `classify_mission enduranceHours radiusKm`,
determined solely by enduranceHours and radiusKm, and is unchanged by any
change to payloadKg (and to lowNoise / budget).  In particular
payloadKg ≥ 100 does not force strategic, and payloadKg ≥ 10 does not
promote a tactical base class to operational. -/
theorem C1_mission_ignores_payload (t r p₁ p₂ : ℚ) (n₁ n₂ : Bool) (b₁ b₂ : ℚ) :
    (configureCore ⟨t, r, p₁, n₁, b₁⟩).missionType = classify_mission t r ∧
    (configureCore ⟨t, r, p₁, n₁, b₁⟩).missionType =
      (configureCore ⟨t, r, p₂, n₂, b₂⟩).missionType :=
  ⟨rfl, rfl⟩

/-- C1 counterexample: the request (enduranceHours 2, radiusKm 10,
payloadKg 150) has payloadKg ≥ 100, yet the computed mission class is
tactical, not strategic, refuting the claimed payload correction. -/
theorem C1_counterexample :
    (150 : ℚ) ≥ 100 ∧
    (configureCore ⟨2, 10, 150, false, 1000⟩).missionType = MissionClass.tactical ∧
    MissionClass.tactical ≠ MissionClass.strategic := by
  refine ⟨by norm_num, ?_, by simp⟩
  norm_num [configureCore_missionType, classify_mission]

/-- C2 (code bug exhibited): with an API key configured, a request timeout,
a connection error, or a malformed (non-JSON) response body of the AI
collaborator aborts the whole `configure` request — the call
`requests.post(...).json()` sits outside the `try` block of
`gemini_summary` and `configure` installs no handler — instead of the
endpoint returning the configuration with a fallback summary. -/
theorem C2_ai_failure_fails_request :
    configure "key" NetOutcome.timeout ⟨2, 10, 1, true, 3000⟩ =
      Except.error NetOutcome.timeout ∧
    configure "key" NetOutcome.connError ⟨2, 10, 1, true, 3000⟩ =
      Except.error NetOutcome.connError ∧
    configure "key" NetOutcome.malformedBody ⟨2, 10, 1, true, 3000⟩ =
      Except.error NetOutcome.malformedBody := by
  refine ⟨?_, ?_, ?_⟩ <;> simp [configure, gemini_summary]

/-- C3 (amended): the engine performs no domain validation at all: a request
whose numeric fields violate a domain constraint (non-positive
enduranceHours or radiusKm, negative payloadKg or budget) is not rejected
with an `InvalidInputError`; `configure` computes and returns a full
configuration from the invalid values (shown here with the AI collaborator
unconfigured, so that the only possible failure source is absent). -/
theorem C3_no_input_validation (net : NetOutcome) (d : MissionRequest)
    (hbad : d.timeHours ≤ 0 ∨ d.radiusKm ≤ 0 ∨ d.payloadKg < 0 ∨ d.budget < 0) :
    configure "" net d =
      Except.ok (configureCore d, "AI недоступний: немає GEMINI_API_KEY") := rfl

theorem C3_witness :
    ((-1 : ℚ) ≤ 0) ∧
    configure "" NetOutcome.timeout ⟨-1, 10, 1, false, 100⟩ =
      Except.ok (configureCore ⟨-1, 10, 1, false, 100⟩,
        "AI недоступний: немає GEMINI_API_KEY") :=
  ⟨by norm_num,
    C3_no_input_validation NetOutcome.timeout ⟨-1, 10, 1, false, 100⟩
      (Or.inl (by norm_num))⟩

/-- C3 counterexample: the request with enduranceHours = −1 violates the
enduranceHours > 0 constraint, yet `configure` succeeds and classifies the
mission (as tactical) from the invalid value instead of signalling an
`InvalidInputError` before the sizing computation. -/
theorem C3_counterexample :
    ((-1 : ℚ) ≤ 0) ∧
    (configure "" NetOutcome.timeout ⟨-1, 10, 1, false, 100⟩).isOk = true ∧
    (configureCore ⟨-1, 10, 1, false, 100⟩).missionType = MissionClass.tactical := by
  refine ⟨by norm_num, rfl, ?_⟩
  norm_num [configureCore_missionType, classify_mission]

/-- C4: every computed configuration satisfies the closure invariant:
thrustN = dragN exactly, takeoffMassKg = emptyMassKg + payloadKg +
energyOrFuelMassKg, rangeKm = cruiseSpeed_mps × enduranceHours × 3.6,
achievableRadiusKm = rangeKm / 2, and meetsRadius holds iff
achievableRadiusKm ≥ requested radiusKm (equality counts as meeting). -/
theorem C4_closure_invariant (d : MissionRequest) :
    (configureCore d).thrust_N = (configureCore d).drag_N ∧
    (configureCore d).mtow_kg =
      (configureCore d).emptyMass_kg + d.payloadKg + (configureCore d).energyMass_kg ∧
    (configureCore d).range_km =
      (configureCore d).cruise_speed_mps * d.timeHours * 3.6 ∧
    (configureCore d).achievableRadius_km = (configureCore d).range_km / 2 ∧
    ((configureCore d).meetsRadius = true ↔
      (configureCore d).achievableRadius_km ≥ d.radiusKm) := by
  refine ⟨rfl, rfl, rfl, ?_, ?_⟩
  · show (configureCore d).range_km / 2.0 = (configureCore d).range_km / 2
    norm_num
  · exact decide_eq_true_iff

/-- C5: propulsion selection is a total function over
(MissionClass × lowNoise × budget × PlatformType) — it is a Lean function,
and the six iff-characterizations below pin its value on every input —
following the canonical algorithm: tactical yields electric iff lowNoise
and budget < 7000 and otherwise combustion (`piston_engine`); operational
yields turbine iff budget > 100000 and not lowNoise and otherwise
combustion; strategic yields turbine iff budget > 50000 and otherwise
combustion. -/
theorem C5_choose_propulsion_canonical (ln : Bool) (b : ℚ) (u : UavType) :
    (choose_propulsion .tactical ln b u = .electric ↔ ln = true ∧ b < 7000) ∧
    (choose_propulsion .tactical ln b u = .piston_engine ↔ ¬(ln = true ∧ b < 7000)) ∧
    (choose_propulsion .operational ln b u = .turbine ↔ b > 100000 ∧ ln = false) ∧
    (choose_propulsion .operational ln b u = .piston_engine ↔
      ¬(b > 100000 ∧ ln = false)) ∧
    (choose_propulsion .strategic ln b u = .turbine ↔ b > 50000) ∧
    (choose_propulsion .strategic ln b u = .piston_engine ↔ ¬(b > 50000)) := by
  unfold choose_propulsion
  cases ln <;> split_ifs <;> simp_all

/-- C6: platform selection is total — it is a Lean function, and the six
iff-characterizations pin its value on every input — following the
canonical decision tree: tactical yields multirotor (`fpv_multirotor`) iff
enduranceHours ≤ 1.5 and radiusKm ≤ 15 and payloadKg ≤ 2 and otherwise
fixed_wing; operational yields fixed_wing iff payloadKg ≥ 20 or
radiusKm > 80 and otherwise flying_wing; strategic yields
loitering_munition iff radiusKm ≥ 400 and payloadKg ≥ 20 and otherwise
flying_wing. -/
theorem C6_select_uav_type_canonical (p r t : ℚ) :
    (select_uav_type .tactical p r t = .fpv_multirotor ↔
      t ≤ 1.5 ∧ r ≤ 15 ∧ p ≤ 2) ∧
    (select_uav_type .tactical p r t = .fixed_wing ↔
      ¬(t ≤ 1.5 ∧ r ≤ 15 ∧ p ≤ 2)) ∧
    (select_uav_type .operational p r t = .fixed_wing ↔ p ≥ 20 ∨ r > 80) ∧
    (select_uav_type .operational p r t = .flying_wing ↔ ¬(p ≥ 20 ∨ r > 80)) ∧
    (select_uav_type .strategic p r t = .loitering_munition ↔
      r ≥ 400 ∧ p ≥ 20) ∧
    (select_uav_type .strategic p r t = .flying_wing ↔ ¬(r ≥ 400 ∧ p ≥ 20)) := by
  unfold select_uav_type
  split_ifs <;> simp_all

/-- C7: the base mission classification returns tactical iff
enduranceHours ≤ 4 and radiusKm ≤ 50, otherwise operational iff
enduranceHours ≤ 27 and radiusKm ≤ 300, and strategic otherwise, for every
positive enduranceHours and radiusKm. -/
theorem C7_base_classification (t r : ℚ) (ht : 0 < t) (hr : 0 < r) :
    (classify_mission t r = .tactical ↔ t ≤ 4 ∧ r ≤ 50) ∧
    (classify_mission t r = .operational ↔
      ¬(t ≤ 4 ∧ r ≤ 50) ∧ t ≤ 27 ∧ r ≤ 300) ∧
    (classify_mission t r = .strategic ↔
      ¬(t ≤ 4 ∧ r ≤ 50) ∧ ¬(t ≤ 27 ∧ r ≤ 300)) := by
  unfold classify_mission
  split_ifs <;> simp_all

theorem C7_witness :
    ((0 : ℚ) < 2 ∧ (0 : ℚ) < 10) ∧
    ((classify_mission 2 10 = .tactical ↔ (2 : ℚ) ≤ 4 ∧ (10 : ℚ) ≤ 50) ∧
     (classify_mission 2 10 = .operational ↔
       ¬((2 : ℚ) ≤ 4 ∧ (10 : ℚ) ≤ 50) ∧ (2 : ℚ) ≤ 27 ∧ (10 : ℚ) ≤ 300) ∧
     (classify_mission 2 10 = .strategic ↔
       ¬((2 : ℚ) ≤ 4 ∧ (10 : ℚ) ≤ 50) ∧ ¬((2 : ℚ) ≤ 27 ∧ (10 : ℚ) ≤ 300))) :=
  ⟨⟨by norm_num, by norm_num⟩, C7_base_classification 2 10 (by norm_num) (by norm_num)⟩

/-- C8: for electric propulsion, energyWh = cruisePowerW × enduranceHours ÷
systemEfficiency and battery mass = energyWh ÷ energyDensity_Wh_per_kg; for
combustion / turbine propulsion, fuelMassKg = enduranceHours ×
specificFuelConsumption_kg_per_kWh × (cruisePowerW ÷ 1000); and under the
preconditions enduranceHours > 0 and cruisePowerW ≥ 0 the energy mass of
every propulsion branch is non-negative and is zero exactly at zero cruise
power. -/
theorem C8_energy_sizing (P t : ℚ) (ht : 0 < t) (hP : 0 ≤ P) :
    electric_energy P t battery_wh_kg eta_sys_electric =
      (P * t / eta_sys_electric, P * t / eta_sys_electric / battery_wh_kg) ∧
    fuel_mass P t bsfc_piston = t * bsfc_piston * (P / 1000) ∧
    fuel_mass P t bsfc_turbine = t * bsfc_turbine * (P / 1000) ∧
    (0 ≤ (energy_branch .electric P t).2 ∧
      ((energy_branch .electric P t).2 = 0 ↔ P = 0)) ∧
    (0 ≤ (energy_branch .piston_engine P t).2 ∧
      ((energy_branch .piston_engine P t).2 = 0 ↔ P = 0)) ∧
    (0 ≤ (energy_branch .turbine P t).2 ∧
      ((energy_branch .turbine P t).2 = 0 ↔ P = 0)) := by
  have heta : (0 : ℚ) < eta_sys_electric := by norm_num [eta_sys_electric]
  have hwh : (0 : ℚ) < battery_wh_kg := by norm_num [battery_wh_kg]
  have hpis : (energy_branch .piston_engine P t).2 = t * bsfc_piston * (P / 1000) := by
    norm_num [energy_branch, fuel_mass]
  have htur : (energy_branch .turbine P t).2 = t * bsfc_turbine * (P / 1000) := by
    norm_num [energy_branch, fuel_mass]
  refine ⟨rfl, by norm_num [fuel_mass], by norm_num [fuel_mass],
    ⟨?_, ?_⟩, ⟨?_, ?_⟩, ⟨?_, ?_⟩⟩
  · exact div_nonneg (div_nonneg (mul_nonneg hP ht.le) heta.le) hwh.le
  · show P * t / eta_sys_electric / battery_wh_kg = 0 ↔ P = 0
    rw [div_eq_zero_iff, div_eq_zero_iff, mul_eq_zero]
    simp [heta.ne', hwh.ne', ht.ne']
  · rw [hpis]
    exact mul_nonneg (mul_nonneg ht.le (by norm_num [bsfc_piston]))
      (div_nonneg hP (by norm_num))
  · rw [hpis, mul_eq_zero, mul_eq_zero, div_eq_zero_iff]
    norm_num [bsfc_piston, ht.ne']
  · rw [htur]
    exact mul_nonneg (mul_nonneg ht.le (by norm_num [bsfc_turbine]))
      (div_nonneg hP (by norm_num))
  · rw [htur, mul_eq_zero, mul_eq_zero, div_eq_zero_iff]
    norm_num [bsfc_turbine, ht.ne']

theorem C8_witness :
    ((0 : ℚ) < 5 ∧ (0 : ℚ) ≤ 2000) ∧
    (electric_energy 2000 5 battery_wh_kg eta_sys_electric =
      ((2000 : ℚ) * 5 / eta_sys_electric,
        (2000 : ℚ) * 5 / eta_sys_electric / battery_wh_kg) ∧
     fuel_mass 2000 5 bsfc_piston = (5 : ℚ) * bsfc_piston * (2000 / 1000) ∧
     fuel_mass 2000 5 bsfc_turbine = (5 : ℚ) * bsfc_turbine * (2000 / 1000) ∧
     (0 ≤ (energy_branch .electric 2000 5).2 ∧
       ((energy_branch .electric 2000 5).2 = 0 ↔ (2000 : ℚ) = 0)) ∧
     (0 ≤ (energy_branch .piston_engine 2000 5).2 ∧
       ((energy_branch .piston_engine 2000 5).2 = 0 ↔ (2000 : ℚ) = 0)) ∧
     (0 ≤ (energy_branch .turbine 2000 5).2 ∧
       ((energy_branch .turbine 2000 5).2 = 0 ↔ (2000 : ℚ) = 0))) :=
  ⟨⟨by norm_num, by norm_num⟩, C8_energy_sizing 2000 5 (by norm_num) (by norm_num)⟩

/-- C9: mission classification is monotonic: for two requests with equal
payloadKg whose enduranceHours and radiusKm each do not decrease, the
computed mission class does not decrease in severity under the ordering
tactical ≤ operational ≤ strategic. -/
theorem C9_classification_monotonic (d₁ d₂ : MissionRequest)
    (hp : d₁.payloadKg = d₂.payloadKg)
    (ht : d₁.timeHours ≤ d₂.timeHours) (hr : d₁.radiusKm ≤ d₂.radiusKm) :
    severity (configureCore d₁).missionType ≤
      severity (configureCore d₂).missionType := by
  rw [configureCore_missionType, configureCore_missionType]
  exact classify_mission_monotone _ _ _ _ ht hr

theorem C9_witness :
    ((1 : ℚ) ≤ 5 ∧ (10 : ℚ) ≤ 60) ∧
    severity (configureCore ⟨1, 10, 5, true, 0⟩).missionType ≤
      severity (configureCore ⟨5, 60, 5, true, 0⟩).missionType :=
  ⟨⟨by norm_num, by norm_num⟩,
    C9_classification_monotonic ⟨1, 10, 5, true, 0⟩ ⟨5, 60, 5, true, 0⟩ rfl
      (by norm_num) (by norm_num)⟩

/-- C10: two requests that agree on enduranceHours, radiusKm and payloadKg
but may differ in budget and lowNoise get the same mission class, platform
type, cruise speed, rangeKm, achievableRadiusKm, and meetsRadius verdict:
the feasibility check never depends on budget or noise preference. -/
theorem C10_budget_noise_noninterference (d₁ d₂ : MissionRequest)
    (ht : d₁.timeHours = d₂.timeHours) (hr : d₁.radiusKm = d₂.radiusKm)
    (hp : d₁.payloadKg = d₂.payloadKg) :
    (configureCore d₁).missionType = (configureCore d₂).missionType ∧
    (configureCore d₁).uavType = (configureCore d₂).uavType ∧
    (configureCore d₁).cruise_speed_mps = (configureCore d₂).cruise_speed_mps ∧
    (configureCore d₁).range_km = (configureCore d₂).range_km ∧
    (configureCore d₁).achievableRadius_km = (configureCore d₂).achievableRadius_km ∧
    (configureCore d₁).meetsRadius = (configureCore d₂).meetsRadius := by
  obtain ⟨t₁, r₁, p₁, n₁, b₁⟩ := d₁
  obtain ⟨t₂, r₂, p₂, n₂, b₂⟩ := d₂
  dsimp only at ht hr hp
  subst ht; subst hr; subst hp
  exact ⟨rfl, rfl, rfl, rfl, rfl, rfl⟩

theorem C10_witness :
    (configureCore ⟨5, 60, 5, false, 200000⟩).missionType =
      (configureCore ⟨5, 60, 5, true, 0⟩).missionType ∧
    (configureCore ⟨5, 60, 5, false, 200000⟩).uavType =
      (configureCore ⟨5, 60, 5, true, 0⟩).uavType ∧
    (configureCore ⟨5, 60, 5, false, 200000⟩).cruise_speed_mps =
      (configureCore ⟨5, 60, 5, true, 0⟩).cruise_speed_mps ∧
    (configureCore ⟨5, 60, 5, false, 200000⟩).range_km =
      (configureCore ⟨5, 60, 5, true, 0⟩).range_km ∧
    (configureCore ⟨5, 60, 5, false, 200000⟩).achievableRadius_km =
      (configureCore ⟨5, 60, 5, true, 0⟩).achievableRadius_km ∧
    (configureCore ⟨5, 60, 5, false, 200000⟩).meetsRadius =
      (configureCore ⟨5, 60, 5, true, 0⟩).meetsRadius :=
  C10_budget_noise_noninterference ⟨5, 60, 5, false, 200000⟩ ⟨5, 60, 5, true, 0⟩
    rfl rfl rfl

end UavArc
